import Mathlib

/-!
Verification of the Similarity Intelligence Platform core pipeline.

Shallow embedding of the Python sources under `app/`:
* `app/config.py`            → `Settings`
* `app/core/embeddings.py`   → `dot`, `clip01`, `similarity`, `batch_similarity`
* `app/core/chunking.py`     → `normalize_text`, `chunk_text`, `extract_keywords`
* `app/core/similarity.py`   → `calculate_similarity_score`, `aggregate_matches_by_source`,
                                `filter_matches_by_threshold`, `get_threshold_for_sensitivity`
* `app/core/vector_store.py` → `add_vectors`, `remove_by_source`
* `app/core/youtube.py`      → `search_videos_by_keywords`, `fetch_transcript`,
                                `chunk_transcript`, `search_and_fetch_transcripts`
* `app/tasks/similarity_check.py` → `process_check`

Machine floats are modelled by exact rationals (`ℚ`); the float claims under test are
about exact midpoint/endpoint values, where the two agree.
-/

namespace SimPlat

/-! ## Settings (`app/config.py`, class `Settings`)

Only the fields the verified components read.  The similarity thresholds carry the
source defaults 0.65 / 0.75 / 0.85. -/

structure Settings where
  min_chunk_words : Nat
  max_chunk_words : Nat
  chunk_overlap_words : Nat
  similarity_threshold_low : ℚ
  similarity_threshold_medium : ℚ
  similarity_threshold_high : ℚ
  snippet_max_length : Nat
  max_youtube_videos : Nat
  max_video_duration_minutes : ℚ
deriving DecidableEq

/-- The defaults of `app/config.py` lines 50-62 and 71. -/
def defaultSettings : Settings :=
  ⟨40, 60, 10, 13/20, 3/4, 17/20, 300, 5, 30⟩

/-! ## Embeddings (`app/core/embeddings.py`, class `EmbeddingGenerator`) -/

/-- `np.dot` on two equal-length vectors. -/
def dot : List ℚ → List ℚ → ℚ
  | a :: as_, b :: bs => a * b + dot as_ bs
  | _, _ => 0

/-- `np.clip(x, 0.0, 1.0)`. -/
def clip01 (x : ℚ) : ℚ := max 0 (min 1 x)

/-- `EmbeddingGenerator.similarity` (lines 93-106): the raw inner product of the two
embeddings, clipped to [0, 1].  There is no remapping of [-1,1] onto [0,1]. -/
def similarity (embedding1 embedding2 : List ℚ) : ℚ :=
  clip01 (dot embedding1 embedding2)

/-- `EmbeddingGenerator.batch_similarity` (lines 108-125): `np.dot(candidates, query)`
row-wise, then `np.clip(·, 0.0, 1.0)`. -/
def batch_similarity (query_embedding : List ℚ) (candidate_embeddings : List (List ℚ)) :
    List ℚ :=
  candidate_embeddings.map (fun c => clip01 (dot c query_embedding))

/-- Modelled from the spec (§4.2 and §8 of spec.md): "cosine similarity linearly
remapped from [-1,1] to [0,1], then clamped".  This is the spec's formula, kept for
comparison with the source's `similarity`; it is not in the source. -/
def spec_remap_similarity (embedding1 embedding2 : List ℚ) : ℚ :=
  clip01 ((dot embedding1 embedding2 + 1) / 2)

/-! ## Text normalization and chunking (`app/core/chunking.py`) -/

/-- The characters Python `\s` (and `str.split()` / `str.strip()`) treats as
whitespace, restricted to ASCII. -/
def isPyWs (c : Char) : Bool :=
  c = ' ' || c = '\t' || c = '\n' || c = '\x0d' || c = '\x0b' || c = '\x0c'

/-- The punctuation class `[.,!?;:]` of `normalize_text`. -/
def isPunctCh (c : Char) : Bool :=
  c = '.' || c = ',' || c = '!' || c = '?' || c = ';' || c = ':'

/-- The scan behind `re.sub(r'\s+', ' ', text)`: `prevWs` records whether the
previous character was whitespace, so each maximal whitespace run becomes one
space. -/
def collapseWsGo (prevWs : Bool) : List Char → List Char
  | [] => []
  | c :: cs =>
    if isPyWs c then
      (if prevWs then collapseWsGo true cs else ' ' :: collapseWsGo true cs)
    else c :: collapseWsGo false cs

/-- `re.sub(r'\s+', ' ', text)`. -/
def collapseWs (l : List Char) : List Char := collapseWsGo false l

/-- The scan behind `re.sub(r'\s*([.,!?;:])\s*', r'\1 ', text)`, the regex engine's
leftmost non-overlapping matching made explicit: `pending` buffers whitespace not
yet known to precede a punctuation character (the candidate leading `\s*` run, dropped
when a punctuation character follows, flushed otherwise), and `skipWs` skips the
`\s*` suffix just consumed after an emitted punctuation character. -/
def punctFixGo (skipWs : Bool) (pending : List Char) : List Char → List Char
  | [] => pending
  | c :: cs =>
    if skipWs && isPyWs c then punctFixGo true pending cs
    else if isPunctCh c then c :: ' ' :: punctFixGo true [] cs
    else if isPyWs c then punctFixGo false (pending ++ [c]) cs
    else pending ++ c :: punctFixGo false [] cs

/-- `re.sub(r'\s*([.,!?;:])\s*', r'\1 ', text)`: every match of optional
whitespace, a punctuation character and optional whitespace is replaced by the
punctuation character followed by a single space. -/
def punctFix (l : List Char) : List Char := punctFixGo false [] l

/-- `str.strip()`. -/
def pyStrip (l : List Char) : List Char :=
  ((l.dropWhile isPyWs).reverse.dropWhile isPyWs).reverse

/-- `TextChunker.normalize_text` (lines 39-59): lowercase, collapse whitespace,
normalize punctuation spacing, strip.  `str.lower` is modelled per-character
(identical on ASCII). -/
def normalize_text (text : String) : String :=
  String.mk (pyStrip (punctFix (collapseWs (text.data.map Char.toLower))))

/-- The scan behind `str.split()`: `acc` holds the reversed characters of the word
being read. -/
def pySplitGo (acc : List Char) : List Char → List String
  | [] => if acc.isEmpty then [] else [String.mk acc.reverse]
  | c :: cs =>
    if isPyWs c then
      (if acc.isEmpty then pySplitGo [] cs
       else String.mk acc.reverse :: pySplitGo [] cs)
    else pySplitGo (c :: acc) cs

/-- `str.split()` with no argument: split on whitespace runs, dropping empties. -/
def pySplit (l : List Char) : List String := pySplitGo [] l

/-- `' '.join(words)`. -/
def joinWords (ws : List String) : String := String.intercalate " " ws

/-- `TextChunk` dataclass (chunking.py lines 7-15). -/
structure TextChunk where
  text : String
  start_index : Nat
  end_index : Nat
  chunk_index : Nat
  word_count : Nat
deriving DecidableEq

/-- The chunking parameters of `TextChunker.__init__`. -/
structure ChunkerCfg where
  min_words : Nat
  max_words : Nat
  overlap_words : Nat
deriving DecidableEq

/-- The `while start_word_idx < len(words)` loop of `TextChunker.chunk_text`
(lines 94-124).  `fuel` bounds the iteration count; `words.length + 1` iterations
always suffice when `overlap_words < max_words` (the source does not terminate
otherwise, since the stride `max_words - overlap_words` would be ≤ 0). -/
def chunkLoop (words : List String) (maxW overlap : Nat) :
    Nat → Nat → Nat → List TextChunk
  | 0, _, _ => []
  | fuel + 1, startIdx, chunkIdx =>
    if startIdx < words.length then
      let endIdx := min (startIdx + maxW) words.length
      let chunkWords := (words.drop startIdx).take (endIdx - startIdx)
      let ctext := joinWords chunkWords
      let startChar := (joinWords (words.take startIdx)).length +
        (if 0 < startIdx then 1 else 0)
      let chunk : TextChunk :=
        ⟨ctext, startChar, startChar + ctext.length, chunkIdx, chunkWords.length⟩
      if words.length ≤ endIdx then [chunk]
      else chunk :: chunkLoop words maxW overlap fuel (startIdx + (maxW - overlap))
        (chunkIdx + 1)
    else []

/-- `TextChunker.chunk_text` (lines 61-126).  If the (normalized) text has fewer than
`min_words` words the whole text is returned as a single chunk — including for the
empty string, whose word list is empty. -/
def chunk_text (cfg : ChunkerCfg) (normalize : Bool) (text : String) : List TextChunk :=
  let text := if normalize then normalize_text text else text
  let words := pySplit text.data
  if words.length < cfg.min_words then
    [⟨text, 0, text.length, 0, words.length⟩]
  else
    chunkLoop words cfg.max_words cfg.overlap_words (words.length + 1) 0 0

/-! ## Keyword extraction (`app/core/chunking.py`, `extract_keywords`, lines 144-176) -/

/-- Python `\w` restricted to ASCII: letters, digits, underscore. -/
def isWordChar (c : Char) : Bool := c.isAlphanum || c = '_'

/-- The scan behind `re.findall(r'\b\w+\b', ...)`: `acc` holds the reversed
characters of the token being read. -/
def findWordTokensGo (acc : List Char) : List Char → List String
  | [] => if acc.isEmpty then [] else [String.mk acc.reverse]
  | c :: cs =>
    if isWordChar c then findWordTokensGo (c :: acc) cs
    else if acc.isEmpty then findWordTokensGo [] cs
    else String.mk acc.reverse :: findWordTokensGo [] cs

/-- `re.findall(r'\b\w+\b', text.lower())`: the maximal word-character runs. -/
def findWordTokens (l : List Char) : List String := findWordTokensGo [] l

/-- The `stop_words` set of `extract_keywords`. -/
def stopWords : List String :=
  ["the", "a", "an", "and", "or", "but", "in", "on", "at", "to", "for",
   "of", "with", "by", "from", "as", "is", "was", "are", "were", "been",
   "be", "have", "has", "had", "do", "does", "did", "will", "would",
   "could", "should", "may", "might", "can", "this", "that", "these",
   "those", "it", "its", "they", "them", "their"]

/-- First-occurrence deduplication: the key order of a Python dict filled by
iteration. -/
def dedupKeepFirstGo {α : Type} [DecidableEq α] (seen : List α) : List α → List α
  | [] => []
  | x :: xs =>
    if x ∈ seen then dedupKeepFirstGo seen xs
    else x :: dedupKeepFirstGo (x :: seen) xs

/-- First-occurrence deduplication (the key order of a Python dict filled by
iteration, and `len(set(...))` when only the length is used). -/
def dedupKeepFirst {α : Type} [DecidableEq α] (l : List α) : List α :=
  dedupKeepFirstGo [] l

/-- Stable insertion into a descending list: a new element goes after existing equal
keys, as Python's stable `sort(reverse=True)` keeps the original order on ties. -/
def insertDescBy {α : Type} (key : α → ℚ) (x : α) : List α → List α
  | [] => [x]
  | y :: ys => if key y < key x then x :: y :: ys else y :: insertDescBy key x ys

/-- Stable descending sort by `key` (Python `sort(key=..., reverse=True)`). -/
def sortDescBy {α : Type} (key : α → ℚ) (l : List α) : List α :=
  l.foldl (fun acc x => insertDescBy key x acc) []

/-- `extract_keywords(text, top_k)` (chunking.py lines 144-176): tokenize the
lowercased text, drop stop words and words of length ≤ 3, count frequencies
(insertion-ordered), stable-sort by count descending, return the top `top_k` words. -/
def extract_keywords (text : String) (top_k : Nat) : List String :=
  let words := (findWordTokens (text.data.map Char.toLower)).filter
    (fun w => 3 < w.length && !(stopWords.contains w))
  let items := (dedupKeepFirst words).map (fun w => (w, words.count w))
  ((sortDescBy (fun p => (p.2 : ℚ)) items).take top_k).map (fun p => p.1)

/-! ## Similarity engine (`app/core/similarity.py`) -/

/-- The `source_metadata` dict entries the aggregator reads (`title`, `identifier`);
`timestamp` is carried through to persisted match rows. -/
structure MatchMeta where
  title : Option String
  identifier : Option String
  timestamp : Option String
deriving DecidableEq

/-- `SimilarityMatch` dataclass (similarity.py lines 11-20). -/
structure SimilarityMatch where
  submission_chunk : TextChunk
  source_chunk_text : String
  source_id : String
  source_type : String
  similarity_score : ℚ
  source_metadata : Option MatchMeta
deriving DecidableEq

/-- `AggregatedMatch` dataclass (similarity.py lines 23-40). -/
structure AggregatedMatch where
  source_id : String
  source_type : String
  source_title : Option String
  source_identifier : Option String
  similarity_score : ℚ
  match_count : Nat
  max_chunk_similarity : ℚ
  avg_chunk_similarity : ℚ
  match_list : List SimilarityMatch
  snippet : String
  explanation : String
  risk_contribution : String
deriving DecidableEq

/-- Python `max` on a nonempty list (ties keep the first maximum); the source never
calls it on an empty list, for which 0 is returned here. -/
def pyMax : List ℚ → ℚ
  | [] => 0
  | [x] => x
  | x :: y :: rest => max x (pyMax (y :: rest))

/-- `np.mean` of a list of scores. -/
def listMean (l : List ℚ) : ℚ := l.sum / (l.length : ℚ)

/-- Python `round(x, 2)` (the source rounds on binary floats; on the exact rationals
appearing in the claims the two agree and no value sits on a rounding midpoint). -/
def round2 (x : ℚ) : ℚ := (⌊x * 100 + 1/2⌋ : ℚ) / 100

/-- Python `round(x, 3)`. -/
def round3 (x : ℚ) : ℚ := (⌊x * 1000 + 1/2⌋ : ℚ) / 1000

/-- `SimilarityEngine.calculate_similarity_score` (lines 84-137).  Note the coverage
term: the source computes `match_count / total_chunks` with `match_count =
len(matches)` in the source — the number of match records, not the number of distinct submission chunks
that matched. -/
def calculate_similarity_score (s : Settings) (ms : List SimilarityMatch)
    (total_chunks : Nat) : ℚ × String :=
  if ms.isEmpty then (0, "low")
  else
    let scores := ms.map (fun m => m.similarity_score)
    let max_similarity := pyMax scores
    let avg_similarity := listMean scores
    let match_count := ms.length
    let coverage : ℚ := if 0 < total_chunks then (match_count : ℚ) / (total_chunks : ℚ) else 0
    let score := max_similarity * 40 + avg_similarity * 30 + coverage * 20 +
      min ((match_count : ℚ) / 5) 1 * 10
    let risk_level :=
      if s.similarity_threshold_high * 100 ≤ score then "high"
      else if s.similarity_threshold_medium * 100 ≤ score then "medium"
      else "low"
    (round2 score, risk_level)

/-- Modelled from the spec (§4.5 and the glossary of spec.md): the same weighted
score but with `coverage = matchedChunkCount / totalSubmissionChunks`, where
`matchedChunkCount` is the number of distinct submission chunks with at least one
match.  Kept for comparison with `calculate_similarity_score`; the rounding step is
left out since the comparison point is the coverage term. -/
def spec_similarity_score (ms : List SimilarityMatch) (total_chunks : Nat) : ℚ :=
  if ms.isEmpty then 0
  else
    let scores := ms.map (fun m => m.similarity_score)
    let matchedChunks := dedupKeepFirst (ms.map (fun m => m.submission_chunk.chunk_index))
    let coverage : ℚ := if 0 < total_chunks then (matchedChunks.length : ℚ) / (total_chunks : ℚ) else 0
    pyMax scores * 40 + listMean scores * 30 + coverage * 20 +
      min ((ms.length : ℚ) / 5) 1 * 10

/-- Python `max(..., key=lambda m: m.similarity_score)`: first maximum. -/
def bestMatch (best : SimilarityMatch) : List SimilarityMatch → SimilarityMatch
  | [] => best
  | m :: ms => bestMatch (if best.similarity_score < m.similarity_score then m else best) ms

/-- `SimilarityEngine._generate_snippet` (lines 214-227). -/
def generate_snippet (s : Settings) (ms : List SimilarityMatch) : String :=
  match ms with
  | [] => ""
  | m :: ms =>
    let snippet := (bestMatch m ms).source_chunk_text
    if s.snippet_max_length < snippet.length then
      (snippet.take (s.snippet_max_length - 3)) ++ "..."
    else snippet

/-- `SimilarityEngine._generate_explanation` (lines 229-248).  The percentage is
`int(similarity * 100)` (truncation; floor on the nonnegative scores here). -/
def generate_explanation (ms : List SimilarityMatch) (sim : ℚ)
    (source_type : String) : String :=
  let percentage := toString ⌊sim * 100⌋
  if ms.length = 1 then
    "Found 1 matching segment with " ++ percentage ++ "% similarity to this " ++
      source_type ++ "."
  else
    "Found " ++ toString ms.length ++ " matching segments with up to " ++
      percentage ++ "% similarity to this " ++ source_type ++
      ". This suggests potential overlap in content or ideas."

/-- The per-source body of `SimilarityEngine.aggregate_matches_by_source`
(lines 161-207). -/
def aggregateGroup (s : Settings) (source_id : String)
    (source_matches : List SimilarityMatch) : AggregatedMatch :=
  match source_matches with
  | [] =>
    ⟨source_id, "", none, none, 0, 0, 0, 0, [], "", "", ""⟩
  | first_match :: _ =>
    let scores := source_matches.map (fun m => m.similarity_score)
    let source_metadata := first_match.source_metadata
    let max_score := pyMax scores
    let avg_score := listMean scores
    let overall_similarity := max_score * (3/5) + avg_score * (2/5)
    let risk_contribution :=
      if s.similarity_threshold_high ≤ overall_similarity then "high"
      else if s.similarity_threshold_medium ≤ overall_similarity then "medium"
      else "low"
    ⟨source_id, first_match.source_type,
      source_metadata.bind (fun md => md.title),
      source_metadata.bind (fun md => md.identifier),
      round3 overall_similarity, source_matches.length,
      round3 max_score, round3 avg_score,
      source_matches.take 5,
      generate_snippet s source_matches,
      generate_explanation source_matches overall_similarity first_match.source_type,
      risk_contribution⟩

/-- `SimilarityEngine.aggregate_matches_by_source` (lines 139-212): group by
`source_id` in insertion order, aggregate each group, then stable-sort by
`similarity_score` descending. -/
def aggregate_matches_by_source (s : Settings) (ms : List SimilarityMatch) :
    List AggregatedMatch :=
  let sourceIds := dedupKeepFirst (ms.map (fun m => m.source_id))
  let aggregated := sourceIds.map (fun sid =>
    aggregateGroup s sid (ms.filter (fun m => m.source_id = sid)))
  sortDescBy (fun a => a.similarity_score) aggregated

/-- `SimilarityEngine.filter_matches_by_threshold` (lines 250-265). -/
def filter_matches_by_threshold (ms : List SimilarityMatch) (threshold : ℚ) :
    List SimilarityMatch :=
  ms.filter (fun m => threshold ≤ m.similarity_score)

/-- `SimilarityEngine.get_threshold_for_sensitivity` (lines 267-282): the dict
lookup with the inverted mapping, defaulting to the medium threshold for any
unknown sensitivity string. -/
def get_threshold_for_sensitivity (s : Settings) (sensitivity : String) : ℚ :=
  if sensitivity = "low" then s.similarity_threshold_high
  else if sensitivity = "medium" then s.similarity_threshold_medium
  else if sensitivity = "high" then s.similarity_threshold_low
  else s.similarity_threshold_medium

/-! ## Vector store (`app/core/vector_store.py`, class `FAISSVectorStore`)

The FAISS index itself is abstracted to its vector count (`ntotal`); the metadata
dict is an insertion-ordered association list, faithful to a Python dict whose keys
are the assigned vector IDs. -/

/-- `VectorMetadata` dataclass (vector_store.py lines 13-24). -/
structure VectorMetadata where
  source_id : String
  source_type : String
  chunk_index : Nat
  chunk_text : String
  language : String
  timestamp : Option String
  title : Option String
  identifier : Option String
deriving DecidableEq

/-- The mutable state of a `FAISSVectorStore`: the FAISS index vector count, the
`metadata` dict (`vector_id → VectorMetadata`) and the `next_id` counter. -/
structure VectorStoreState where
  ntotal : Nat
  metadata : List (Nat × VectorMetadata)
  next_id : Nat
deriving DecidableEq

/-- A freshly constructed store with no persisted files to load. -/
def emptyStore : VectorStoreState := ⟨0, [], 0⟩

/-- `FAISSVectorStore.add_vectors` (lines 66-104): each of the `n` embeddings gets the
ID `next_id + i`, its metadata is stored under that ID, and `next_id` advances by `n`.
The source raises when the embedding and metadata counts differ, so one list stands
for both. -/
def add_vectors (st : VectorStoreState) (metadata_list : List VectorMetadata) :
    VectorStoreState × List Nat :=
  let vector_ids := (List.range metadata_list.length).map (fun i => st.next_id + i)
  (⟨st.ntotal + metadata_list.length,
    st.metadata ++ vector_ids.zip metadata_list,
    st.next_id + metadata_list.length⟩,
   vector_ids)

/-- `FAISSVectorStore.remove_by_source` (lines 220-268).  No matching vectors: no-op.
All vectors matching: the index is reset, the metadata cleared, and `next_id` is set
back to 0.  Otherwise only the matching metadata entries are deleted (the FAISS index
is not compacted and `next_id` is unchanged). -/
def remove_by_source (st : VectorStoreState) (source_id : String) :
    VectorStoreState × Nat :=
  let ids_to_remove := (st.metadata.filter (fun p => p.2.source_id = source_id)).map
    (fun p => p.1)
  if ids_to_remove.isEmpty then (st, 0)
  else
    let ids_to_keep := (st.metadata.filter (fun p => ¬p.2.source_id = source_id)).map
      (fun p => p.1)
    if ids_to_keep.isEmpty then
      (⟨0, [], 0⟩, ids_to_remove.length)
    else
      (⟨st.ntotal, st.metadata.filter (fun p => ¬p.2.source_id = source_id),
        st.next_id⟩, ids_to_remove.length)

/-- One client call against a `FAISSVectorStore`. -/
inductive StoreOp where
  | add (metadata_list : List VectorMetadata)
  | removeSource (source_id : String)
deriving DecidableEq

/-- Apply one operation; `removeSource` assigns no IDs. -/
def applyOp (st : VectorStoreState) : StoreOp → VectorStoreState × List Nat
  | .add metas => add_vectors st metas
  | .removeSource sid => ((remove_by_source st sid).1, [])

/-- Run a sequence of operations from `st`, collecting every vector ID the store
hands out, in order. -/
def runOps (st : VectorStoreState) : List StoreOp → VectorStoreState × List Nat
  | [] => (st, [])
  | op :: ops =>
    let r := applyOp st op
    let rest := runOps r.1 ops
    (rest.1, r.2 ++ rest.2)

/-- Whether an operation takes the full-reset branch of `remove_by_source` (all
metadata entries match the removed source): the branch that sets `next_id` back
to 0. -/
def opResets (st : VectorStoreState) : StoreOp → Bool
  | .add _ => false
  | .removeSource sid =>
    !((st.metadata.filter (fun p => p.2.source_id = sid)).map (fun p => p.1)).isEmpty &&
    ((st.metadata.filter (fun p => ¬p.2.source_id = sid)).map (fun p => p.1)).isEmpty

/-- True when no operation of the run takes the full-reset branch. -/
def resetFreeRun (st : VectorStoreState) : List StoreOp → Bool
  | [] => true
  | op :: ops => !opResets st op && resetFreeRun (applyOp st op).1 ops

/-! ## YouTube fetcher (`app/core/youtube.py`)

External network calls (the YouTube Data API search, the videos().list detail call,
and the transcript API) are modelled as `Except`-valued inputs: `.error` stands for
the call raising.  Every `try/except` of the source is an explicit `match` on such a
value, so the containment (or propagation) of each failure is visible in the types. -/

/-- A raw transcript entry as returned by `transcript.fetch()`. -/
structure TranscriptEntry where
  text : String
  start : ℚ
  duration : ℚ
deriving DecidableEq

/-- `TranscriptSegment` dataclass (youtube.py lines 15-22). -/
structure TranscriptSegment where
  text : String
  start_time : ℚ
  duration : ℚ
  timestamp : String
deriving DecidableEq

/-- One item of the search response: whether `item['id']['kind']` is
`youtube#video`, plus the video ID and title. -/
structure YtSearchItem where
  kindIsVideo : Bool
  videoId : String
  title : String
deriving DecidableEq

/-- The metadata dict built by `get_video_metadata`. -/
structure YtVideoMeta where
  title : String
  channel : String
  duration_seconds : ℚ
  url : String
deriving DecidableEq

/-- The external calls a `YouTubeTranscriptFetcher` makes.  `searchExec` is the
search().list().execute() call; `videosListExec` the videos().list duration-detail
call, yielding per item the video ID and its parsed duration in minutes (`none` for
a per-item ISO-duration parse failure, which the source skips); `metadataExec` the
videos().list metadata call (`.ok none`: video not found); `transcriptExec` the
transcript listing and fetch. -/
structure YtApi where
  clientPresent : Bool
  searchExec : Except String (List YtSearchItem)
  videosListExec : Except String (List (String × Option ℚ))
  metadataExec : String → Except String (Option YtVideoMeta)
  transcriptExec : String → Except String (List TranscriptEntry)

/-- Two-digit zero-padded rendering, Python `f"{n:02d}"` for `n ≥ 0`. -/
def pad2 (n : Nat) : String := if n < 10 then "0" ++ toString n else toString n

/-- `YouTubeTranscriptFetcher._format_timestamp` (lines 449-461):
`int(seconds // 60)` and `int(seconds % 60)` formatted `MM:SS`. -/
def format_timestamp (seconds : ℚ) : String :=
  let minutes := (⌊seconds / 60⌋).toNat
  let secs := (⌊seconds - 60 * (⌊seconds / 60⌋ : ℚ)⌋).toNat
  pad2 minutes ++ ":" ++ pad2 secs

/-- `YouTubeTranscriptFetcher.process_transcript` (lines 111-146): strip each
entry's text, drop empties, attach the formatted timestamp. -/
def process_transcript (transcript_data : List TranscriptEntry) :
    List TranscriptSegment :=
  transcript_data.filterMap (fun e =>
    let text := String.mk (pyStrip e.text.data)
    if text = "" then none
    else some ⟨text, e.start, e.duration, format_timestamp e.start⟩)

/-- The `filler_words` set of `_remove_filler_words` (lines 207-214).  The
multi-word entries can never equal a single token, faithfully to the source, where
they are dead entries of the set. -/
def fillerWords : List String :=
  ["um", "umm", "uh", "uhh", "hmm", "mhmm",
   "like", "you know", "i mean",
   "sort of", "kind of",
   "basically", "actually", "literally",
   "seriously", "honestly", "obviously"]

/-- `YouTubeTranscriptFetcher._remove_filler_words` (lines 197-225). -/
def remove_filler_words (text : String) : String :=
  joinWords ((pySplit (text.data.map Char.toLower)).filter
    (fun w => !fillerWords.contains w))

/-- The accumulation loop of `chunk_transcript` (lines 163-195): segments are
cleaned of filler words and concatenated; once the running word count reaches
`target_words` a `(chunk_text, start_timestamp)` pair is emitted and the
accumulator resets.  A leftover short chunk is emitted with its start timestamp,
`"00:00"` when that is falsy. -/
def chunkTranscriptGo (target_words : Nat) :
    List TranscriptSegment → List String → Nat → Option String →
    List (String × String)
  | [], current_chunk, _, startTs =>
    if current_chunk.isEmpty then []
    else
      [(joinWords current_chunk,
        match startTs with
        | some t => if t = "" then "00:00" else t
        | none => "00:00")]
  | seg :: rest, current_chunk, current_word_count, startTs =>
    let cleaned := remove_filler_words seg.text
    let word_count := (pySplit cleaned.data).length
    let startTs := match startTs with
      | none => some seg.timestamp
      | some t => some t
    let current_chunk := current_chunk ++ [cleaned]
    let current_word_count := current_word_count + word_count
    if target_words ≤ current_word_count then
      (joinWords current_chunk, startTs.getD "00:00") ::
        chunkTranscriptGo target_words rest [] 0 none
    else chunkTranscriptGo target_words rest current_chunk current_word_count startTs

/-- `YouTubeTranscriptFetcher.chunk_transcript` (lines 148-195). -/
def chunk_transcript (segments : List TranscriptSegment) (target_words : Nat) :
    List (String × String) :=
  chunkTranscriptGo target_words segments [] 0 none

/-- Substring test (Python `pattern in title`). -/
def hasSubstring (needle : List Char) : List Char → Bool
  | [] => needle.isEmpty
  | c :: cs => needle.isPrefixOf (c :: cs) || hasSubstring needle cs

/-- The `generic_patterns` denylist of `_filter_generic_content` (lines 302-316). -/
def genericPatterns : List String :=
  ["compilation", "compilations",
   "funny moments", "best moments",
   "top 10", "top 5", "top ten", "top five",
   "fails", "fail compilation",
   "challenge", "challenges",
   "prank", "pranks",
   "reaction", "reacts to",
   "unboxing",
   "vlog", "daily vlog",
   "try not to",
   "vs", "versus",
   "clickbait",
   "you won\u0027t believe"]

/-- Whether a lowercased title contains any generic pattern
(`_filter_generic_content`, lines 291-330). -/
def isGenericTitle (title : String) : Bool :=
  genericPatterns.any (fun p => hasSubstring p.data (title.data.map Char.toLower))

/-- `YouTubeTranscriptFetcher._filter_videos_by_duration` (lines 332-372): no
client or no IDs → `[]`; the detail call raising (`HttpError`) → the *original*
list is returned unfiltered; otherwise keep the response items whose parsed
duration is between 0.5 and `max_duration_minutes` minutes, skipping per-item
parse failures. -/
def filter_videos_by_duration (clientPresent : Bool)
    (videosListExec : Except String (List (String × Option ℚ)))
    (max_duration_minutes : ℚ) (video_ids : List String) : List String :=
  if !clientPresent || video_ids.isEmpty then []
  else
    match videosListExec with
    | .error _ => video_ids
    | .ok items =>
      items.filterMap (fun p =>
        match p.2 with
        | none => none
        | some minutes =>
          if minutes ≤ max_duration_minutes ∧ 1/2 ≤ minutes then some p.1 else none)

/-- `YouTubeTranscriptFetcher.search_videos_by_keywords` (lines 227-289): without a
client, or when the search call raises (`HttpError` or any other exception — both
`except` arms return the empty list), no IDs are produced; otherwise keep items of
kind video, drop generic titles, filter by duration and truncate to
`max_results`. -/
def search_videos_by_keywords (clientPresent : Bool)
    (searchExec : Except String (List YtSearchItem))
    (videosListExec : Except String (List (String × Option ℚ)))
    (max_duration_minutes : ℚ)
    (keywords : List String) (max_results : Nat) : List String :=
  if !clientPresent then []
  else
    let _query := joinWords (keywords.take 5)
    match searchExec with
    | .error _ => []
    | .ok items =>
      let video_items := items.filter (fun it => it.kindIsVideo)
      let filtered_items := video_items.filter (fun it => !isGenericTitle it.title)
      let video_ids := filtered_items.map (fun it => it.videoId)
      (filter_videos_by_duration clientPresent videosListExec max_duration_minutes
        video_ids).take max_results

/-- `YouTubeTranscriptFetcher.fetch_transcript` (lines 75-109): every exception —
`TranscriptsDisabled`, `NoTranscriptFound`, or anything else — is caught and turned
into `None`. -/
def fetch_transcript (transcriptExec : String → Except String (List TranscriptEntry))
    (video_id : String) : Option (List TranscriptEntry) :=
  match transcriptExec video_id with
  | .error _ => none
  | .ok td => some td

/-- The fallback metadata dict of `get_video_metadata`. -/
def fallback_metadata (video_id title : String) : YtVideoMeta :=
  ⟨title, "Unknown", 0, "https://www.youtube.com/watch?v=" ++ video_id⟩

/-- `YouTubeTranscriptFetcher.get_video_metadata` (lines 374-447): no client →
placeholder; the call raising → an error placeholder with duration 0; no items →
an Unknown placeholder; otherwise the parsed metadata. -/
def get_video_metadata (clientPresent : Bool)
    (metadataExec : String → Except String (Option YtVideoMeta))
    (video_id : String) : YtVideoMeta :=
  if !clientPresent then fallback_metadata video_id ("Video " ++ video_id)
  else
    match metadataExec video_id with
    | .error _ => fallback_metadata video_id "Error fetching metadata"
    | .ok none => fallback_metadata video_id "Unknown"
    | .ok (some m) => m

/-- One entry of the list returned by `search_and_fetch_transcripts`. -/
structure VideoData where
  video_id : String
  metadata : YtVideoMeta
  segments : List TranscriptSegment
  chunks : List (String × String)
deriving DecidableEq

/-- `search_and_fetch_transcripts` (youtube.py lines 464-518).  The fetcher is
constructed with `max_videos` only, so the duration ceiling is the constructor
default of 30 minutes.  Videos over the ceiling, without a transcript, or with an
empty transcript (`if not transcript_data`) are skipped. -/
def search_and_fetch_transcripts (api : YtApi) (article_text : String)
    (max_videos : Nat) : List VideoData :=
  let max_duration_minutes : ℚ := 30
  let keywords := extract_keywords article_text 10
  let video_ids := search_videos_by_keywords api.clientPresent api.searchExec
    api.videosListExec max_duration_minutes keywords max_videos
  (video_ids.take max_videos).filterMap (fun vid =>
    let metadata := get_video_metadata api.clientPresent api.metadataExec vid
    if max_duration_minutes < metadata.duration_seconds / 60 then none
    else
      match fetch_transcript api.transcriptExec vid with
      | none => none
      | some td =>
        if td.isEmpty then none
        else
          let segments := process_transcript td
          some ⟨vid, metadata, segments, chunk_transcript segments 50⟩)

/-! ## Orchestrator (`app/tasks/similarity_check.py`)

`_process_check_async` with its database session abstracted away: the Check row is
an input, the returned `CheckFinal` carries the fields the function writes back.
The article vector store's `search` and the embedding model are abstracted as
function-valued inputs; within `_process_check_async` itself no call is wrapped in
a per-source try/except — the containment of fetcher failures lives inside
`_check_web_articles` (its own try/except) and inside `app/core/youtube.py` (each
external call's except arms), as embedded above.  Database commits and
`youtube_store.save()` are modelled as non-failing. -/

/-- The per-video body and early-exit control of `_check_youtube` (lines 357-421):
embed the transcript chunks, add them to the YouTube store, compare every
submission chunk against them, and stop early after 3 processed videos with zero
running matches. -/
def checkYoutubeLoop (embed : String → List ℚ)
    (subChunks : List (TextChunk × List ℚ)) (threshold : ℚ) :
    List VideoData → Nat → List SimilarityMatch → VectorStoreState →
    List SimilarityMatch × VectorStoreState
  | [], _, ms, store => (ms, store)
  | video :: rest, video_idx, ms, store =>
    let chunk_texts := video.chunks.map (fun c => c.1)
    let chunk_timestamps := video.chunks.map (fun c => c.2)
    let transcript_embeddings := chunk_texts.map embed
    let vector_metadata_list := ((List.range video.chunks.length).zip video.chunks).map
      (fun p => (⟨video.video_id, "youtube", p.1, p.2.1, "en", some p.2.2,
        some video.metadata.title, some video.metadata.url⟩ : VectorMetadata))
    let store := (add_vectors store vector_metadata_list).1
    let newMatches := subChunks.flatMap (fun p =>
      ((chunk_texts.zip chunk_timestamps).zip
          (batch_similarity p.2 transcript_embeddings)).filterMap (fun q =>
        if threshold ≤ q.2 then
          some ⟨p.1, q.1.1, video.video_id, "youtube", q.2,
            some ⟨some video.metadata.title, some video.metadata.url, some q.1.2⟩⟩
        else none))
    let ms := ms ++ newMatches
    if 2 ≤ video_idx ∧ ms.length = 0 then (ms, store)
    else checkYoutubeLoop embed subChunks threshold rest (video_idx + 1) ms store

/-- `_check_youtube` (lines 339-426): fetch candidate transcripts, return
immediately when there are none (before touching the store), otherwise run the
per-video loop.  The final `youtube_store.save()` is modelled as non-failing. -/
def check_youtube (api : YtApi) (embed : String → List ℚ)
    (article_text : String) (chunks : List TextChunk)
    (embeddings : List (List ℚ)) (threshold : ℚ)
    (youtube_store : VectorStoreState) (max_videos : Nat) :
    List SimilarityMatch × VectorStoreState :=
  let youtube_data := search_and_fetch_transcripts api article_text max_videos
  if youtube_data.isEmpty then ([], youtube_store)
  else checkYoutubeLoop embed (chunks.zip embeddings) threshold youtube_data 0 []
    youtube_store

/-- `_check_web_articles` (lines 230-336): skipped when no search engine is
configured; the whole search-fetch-compare body runs under one `try/except`, so a
raise anywhere returns the matches appended before it (the `.error` payload). -/
def check_web_articles (web_configured : Bool)
    (web_body : Except (List SimilarityMatch) (List SimilarityMatch)) :
    List SimilarityMatch :=
  if !web_configured then []
  else
    match web_body with
    | .ok ms => ms
    | .error collected => collected

/-- `_check_articles` (lines 169-227): search the local article store per chunk
when it is non-empty (keeping results at or above the threshold), then extend with
the web matches.  `local_search` stands for `article_store.search(·, k=10,
filter_fn=source_type == article)`. -/
def check_articles (local_search : List ℚ → List (VectorMetadata × ℚ))
    (store_count : Nat) (web_configured : Bool)
    (web_body : Except (List SimilarityMatch) (List SimilarityMatch))
    (chunks : List TextChunk) (embeddings : List (List ℚ)) (threshold : ℚ) :
    List SimilarityMatch :=
  let local_matches :=
    if 0 < store_count then
      (chunks.zip embeddings).flatMap (fun p =>
        (local_search p.2).filterMap (fun r =>
          if threshold ≤ r.2 then
            some ⟨p.1, r.1.chunk_text, r.1.source_id, "article", r.2,
              some ⟨r.1.title, r.1.identifier, none⟩⟩
          else none))
    else []
  local_matches ++ check_web_articles web_configured web_body

/-- The Check-row fields `_process_check_async` reads. -/
structure CheckRow where
  sensitivity : String
  check_articles : Bool
  check_youtube : Bool
deriving DecidableEq

/-- The Check-row fields `_process_check_async` writes on completion
(lines 139-149). -/
structure CheckFinal where
  status : String
  chunk_count : Nat
  similarity_score : ℚ
  risk_level : String
  match_count : Nat
  sources_checked : Nat
  persisted : List AggregatedMatch
  error_message : Option String
deriving DecidableEq

/-- `_process_check_async` (lines 41-166), its happy path: chunk and embed the
submission, derive the threshold from the Check's sensitivity, fan out to the
enabled sources, count distinct matched source IDs per source family, filter by
threshold, score, aggregate, persist the top 20 aggregated matches, and mark the
Check completed.  `match_count` is written as the length of the full aggregated
list (line 143), while only the first 20 entries are persisted (line 110). -/
def process_check (s : Settings) (check : CheckRow) (article_text : String)
    (embed : String → List ℚ)
    (local_search : List ℚ → List (VectorMetadata × ℚ)) (store_count : Nat)
    (web_configured : Bool)
    (web_body : Except (List SimilarityMatch) (List SimilarityMatch))
    (api : YtApi) (youtube_store : VectorStoreState) :
    CheckFinal × VectorStoreState :=
  let cfg : ChunkerCfg := ⟨s.min_chunk_words, s.max_chunk_words, s.chunk_overlap_words⟩
  let chunks := chunk_text cfg true article_text
  let embeddings := chunks.map (fun c => embed c.text)
  let threshold := get_threshold_for_sensitivity s check.sensitivity
  let article_matches :=
    if check.check_articles then
      check_articles local_search store_count web_configured web_body chunks
        embeddings threshold
    else []
  let sources_a :=
    if check.check_articles then
      (dedupKeepFirst (article_matches.map (fun m => m.source_id))).length
    else 0
  let ytr :=
    if check.check_youtube then
      check_youtube api embed article_text chunks embeddings threshold
        youtube_store s.max_youtube_videos
    else ([], youtube_store)
  let youtube_matches := ytr.1
  let sources_y :=
    if check.check_youtube then
      (dedupKeepFirst ((youtube_matches.filter
        (fun m => m.source_type = "youtube")).map (fun m => m.source_id))).length
    else 0
  let all_matches := article_matches ++ youtube_matches
  let filtered := filter_matches_by_threshold all_matches threshold
  let sr := calculate_similarity_score s filtered chunks.length
  let aggregated := aggregate_matches_by_source s filtered
  (⟨"completed", chunks.length, sr.1, sr.2, aggregated.length,
    sources_a + sources_y, aggregated.take 20, none⟩, ytr.2)

/-! ## Claims -/

/-- C1 counterexample: for the orthogonal unit vectors (1,0) and (0,1) the source's
`similarity` returns 0, not the 0.5 the claimed [-1,1]→[0,1] remapping
(`spec_remap_similarity`) would give — the claim's formula and its orthogonal-vector
consequence are both false of the code. -/
theorem C1_orthogonal_gives_zero_not_half :
    similarity [1, 0] [0, 1] = 0 ∧
    spec_remap_similarity [1, 0] [0, 1] = 1/2 ∧
    similarity [1, 0] [0, 1] ≠ spec_remap_similarity [1, 0] [0, 1] ∧
    dot [1, 0] [1, 0] = 1 ∧ dot [0, 1] [0, 1] = 1 ∧ dot [1, 0] [0, 1] = 0 := by
  refine ⟨?_, ?_, ?_, ?_, ?_, ?_⟩ <;>
    norm_num [similarity, spec_remap_similarity, dot, clip01]

/-- C1 (amended): `similarity` is the cosine (inner product of the already
normalized embeddings) clamped to [0,1] with no remapping: it always lies in
[0,1], a unit vector compared with itself gives exactly 1, and orthogonal vectors
give exactly 0 (not 0.5). -/
theorem C1_similarity_is_clamped_cosine (a b : List ℚ)
    (ha : dot a a = 1) (hab : dot a b = 0) :
    0 ≤ similarity a b ∧ similarity a b ≤ 1 ∧
    similarity a a = 1 ∧ similarity a b = 0 := by
  refine ⟨le_max_left 0 _, max_le (by norm_num) (min_le_left 1 _), ?_, ?_⟩
  · simp [similarity, clip01, ha]
  · simp [similarity, clip01, hab]

/-- C1 witness: the amended statement at the orthogonal unit vectors (1,0), (0,1). -/
theorem C1_similarity_is_clamped_cosine_witness :
    0 ≤ similarity [1, 0] [0, 1] ∧ similarity [1, 0] [0, 1] ≤ 1 ∧
    similarity [1, 0] [1, 0] = 1 ∧ similarity [1, 0] [0, 1] = 0 :=
  C1_similarity_is_clamped_cosine [1, 0] [0, 1] (by norm_num [dot]) (by norm_num [dot])

/-- C3: the code is wrong about coverage.  At two matches that both come from the
same submission chunk (index 0, scores 0.8) out of 4 total chunks, the source's
`calculate_similarity_score` computes coverage `= len(matches)/total = 2/4` and
returns 70.0, while the claimed (and the docstring's) "distinct chunks matched"
coverage `1/4` gives 65 (`spec_similarity_score`).  The empty-list case does hold:
score 0 and risk "low". -/
theorem C3_coverage_counts_matches_not_chunks :
    calculate_similarity_score defaultSettings
      [⟨⟨"c0", 0, 2, 0, 1⟩, "s1", "srcA", "article", 4/5, none⟩,
       ⟨⟨"c0", 0, 2, 0, 1⟩, "s2", "srcB", "article", 4/5, none⟩] 4 = (70, "low") ∧
    spec_similarity_score
      [⟨⟨"c0", 0, 2, 0, 1⟩, "s1", "srcA", "article", 4/5, none⟩,
       ⟨⟨"c0", 0, 2, 0, 1⟩, "s2", "srcB", "article", 4/5, none⟩] 4 = 65 ∧
    (70 : ℚ) ≠ 65 ∧
    calculate_similarity_score defaultSettings [] 4 = (0, "low") := by
  refine ⟨?_, ?_, by norm_num, by simp [calculate_similarity_score]⟩
  · norm_num [calculate_similarity_score, defaultSettings, pyMax, listMean, round2]
  · norm_num [spec_similarity_score, dedupKeepFirst, dedupKeepFirstGo, pyMax, listMean]

/-- C4: the claimed invariant `score ∈ [0,100]` fails on the code.  Six matches,
each with similarity 1 (all within [0,1]), against a 1-chunk submission make the
coverage term `6/1`, and `calculate_similarity_score` returns 200 — over the
documented 0-100 range; the Check row stores the value unclamped. -/
theorem C4_score_can_exceed_100 :
    calculate_similarity_score defaultSettings
      ((List.range 6).map (fun i =>
        ⟨⟨"c0", 0, 2, 0, 1⟩, toString i, "src" ++ toString i, "article", 1, none⟩)) 1
      = (200, "high") ∧
    (∀ m ∈ ((List.range 6).map (fun i =>
        (⟨⟨"c0", 0, 2, 0, 1⟩, toString i, "src" ++ toString i, "article", 1, none⟩
          : SimilarityMatch))),
      0 ≤ m.similarity_score ∧ m.similarity_score ≤ 1) ∧
    (100 : ℚ) < 200 := by
  refine ⟨?_, ?_, by norm_num⟩
  · norm_num [calculate_similarity_score, defaultSettings, pyMax, listMean, round2,
      List.range_succ]
  · intro m hm
    simp only [List.mem_map] at hm
    obtain ⟨i, _, rfl⟩ := hm
    norm_num

/-- C5: with thresholds configured `low < medium < high`,
`get_threshold_for_sensitivity` is the inverted mapping — sensitivity "low" gets
the high threshold, "medium" the medium one, "high" the low one — so
`thresholdFor("low") > thresholdFor("medium") > thresholdFor("high")`. -/
theorem C5_threshold_inversion (s : Settings)
    (h1 : s.similarity_threshold_low < s.similarity_threshold_medium)
    (h2 : s.similarity_threshold_medium < s.similarity_threshold_high) :
    get_threshold_for_sensitivity s "medium" < get_threshold_for_sensitivity s "low" ∧
    get_threshold_for_sensitivity s "high" < get_threshold_for_sensitivity s "medium" ∧
    get_threshold_for_sensitivity s "low" = s.similarity_threshold_high ∧
    get_threshold_for_sensitivity s "medium" = s.similarity_threshold_medium ∧
    get_threshold_for_sensitivity s "high" = s.similarity_threshold_low := by
  refine ⟨?_, ?_, ?_, ?_, ?_⟩ <;> simp [get_threshold_for_sensitivity] <;> assumption

/-- C5 witness: the inversion at the default configuration 0.65 < 0.75 < 0.85. -/
theorem C5_threshold_inversion_witness :
    get_threshold_for_sensitivity defaultSettings "medium" <
      get_threshold_for_sensitivity defaultSettings "low" ∧
    get_threshold_for_sensitivity defaultSettings "high" <
      get_threshold_for_sensitivity defaultSettings "medium" ∧
    get_threshold_for_sensitivity defaultSettings "low" =
      defaultSettings.similarity_threshold_high ∧
    get_threshold_for_sensitivity defaultSettings "medium" =
      defaultSettings.similarity_threshold_medium ∧
    get_threshold_for_sensitivity defaultSettings "high" =
      defaultSettings.similarity_threshold_low :=
  C5_threshold_inversion defaultSettings (by norm_num [defaultSettings])
    (by norm_num [defaultSettings])

/-- C7: the claim (and the repository's own test `test_chunk_text_empty_input`,
which asserts an empty result) is right and the code is wrong: `chunk_text` on the
empty string takes the `len(words) < min_words` path and returns one chunk with
empty text instead of the empty sequence. -/
theorem C7_empty_input_yields_one_empty_chunk :
    chunk_text ⟨40, 60, 10⟩ true "" = [⟨"", 0, 0, 0, 0⟩] ∧
    (chunk_text ⟨40, 60, 10⟩ true "").length ≠ 0 := by
  refine ⟨by decide, by decide⟩

/-- C10: any sensitivity string other than "low"/"medium"/"high" falls through to
the dict default: `get_threshold_for_sensitivity` does not fail and returns the
configured medium threshold, the same value as for "medium". -/
theorem C10_unknown_sensitivity_defaults_to_medium (s : Settings) (sens : String)
    (h1 : sens ≠ "low") (h2 : sens ≠ "medium") (h3 : sens ≠ "high") :
    get_threshold_for_sensitivity s sens = s.similarity_threshold_medium ∧
    get_threshold_for_sensitivity s sens = get_threshold_for_sensitivity s "medium" := by
  constructor <;> simp [get_threshold_for_sensitivity, h1, h2, h3]

/-- C10 witness: the default at the unknown sensitivity string "invalid". -/
theorem C10_unknown_sensitivity_defaults_to_medium_witness :
    get_threshold_for_sensitivity defaultSettings "invalid" =
      defaultSettings.similarity_threshold_medium ∧
    get_threshold_for_sensitivity defaultSettings "invalid" =
      get_threshold_for_sensitivity defaultSettings "medium" :=
  C10_unknown_sensitivity_defaults_to_medium defaultSettings "invalid"
    (by simp) (by simp) (by simp)

/-- C9 counterexample: adding one vector for source "s" assigns ID 0; removing
source "s" empties the store, which resets `next_id` to 0 (the full-reset branch
of `remove_by_source`); the next add hands out ID 0 again.  The assigned-ID
trace is [0, 0] — a vector ID is reassigned after logical deletion of every
vector of a source, refuting the claim's universal statement. -/
theorem C9_id_reassigned_after_emptying_removal :
    (runOps emptyStore
      [StoreOp.add [⟨"s", "article", 0, "t", "en", none, none, none⟩],
       StoreOp.removeSource "s",
       StoreOp.add [⟨"t2", "article", 0, "t", "en", none, none, none⟩]]).2 = [0, 0] ∧
    ¬ ((runOps emptyStore
      [StoreOp.add [⟨"s", "article", 0, "t", "en", none, none, none⟩],
       StoreOp.removeSource "s",
       StoreOp.add [⟨"t2", "article", 0, "t", "en", none, none, none⟩]]).2).Nodup := by
  refine ⟨by decide, by decide⟩

theorem applyOp_add_eq (st : VectorStoreState) (metas : List VectorMetadata) :
    applyOp st (StoreOp.add metas) =
      (⟨st.ntotal + metas.length,
        st.metadata ++ ((List.range metas.length).map (fun i => st.next_id + i)).zip metas,
        st.next_id + metas.length⟩,
       (List.range metas.length).map (fun i => st.next_id + i)) := rfl

theorem remove_next_id_of_not_reset (st : VectorStoreState) (sid : String)
    (h : opResets st (StoreOp.removeSource sid) = false) :
    ((remove_by_source st sid).1).next_id = st.next_id := by
  cases ha : ((st.metadata.filter (fun p => p.2.source_id = sid)).map
      (fun p => p.1)).isEmpty with
  | true => simp [remove_by_source, ha]
  | false =>
    have hb : ((st.metadata.filter (fun p => ¬p.2.source_id = sid)).map
        (fun p => p.1)).isEmpty = false := by
      simp only [opResets, ha, Bool.not_false, Bool.true_and] at h
      exact h
    simp only [remove_by_source]
    rw [ha, hb]
    simp

/-- The freshness invariant behind C9: over any reset-free run, the IDs handed out
are pairwise distinct, bounded below by the starting `next_id` and above by the
final one, and `next_id` never decreases. -/
theorem runOps_fresh (ops : List StoreOp) : ∀ st : VectorStoreState,
    resetFreeRun st ops = true →
    ((runOps st ops).2).Nodup ∧
    (∀ i ∈ (runOps st ops).2, st.next_id ≤ i ∧ i < (runOps st ops).1.next_id) ∧
    st.next_id ≤ (runOps st ops).1.next_id := by
  induction ops with
  | nil => intro st _; simp [runOps]
  | cons op ops ih =>
    intro st h
    rw [resetFreeRun, Bool.and_eq_true, Bool.not_eq_true'] at h
    obtain ⟨h1, h2⟩ := h
    have IH := ih (applyOp st op).1 h2
    cases op with
    | add metas =>
      simp only [runOps, applyOp, add_vectors] at IH ⊢
      obtain ⟨IH1, IH2, IH3⟩ := IH
      have hidsnd : ((List.range metas.length).map (fun i => st.next_id + i)).Nodup :=
        List.Nodup.map (fun a b hab => by omega) (List.nodup_range _)
      have hidbound : ∀ a ∈ (List.range metas.length).map (fun i => st.next_id + i),
          st.next_id ≤ a ∧ a < st.next_id + metas.length := by
        intro a ha
        simp only [List.mem_map, List.mem_range] at ha
        obtain ⟨i, hi, rfl⟩ := ha
        omega
      refine ⟨?_, ?_, ?_⟩
      · refine List.Nodup.append hidsnd IH1 ?_
        intro a ha hb
        have hlt := (hidbound a ha).2
        have hge := (IH2 a hb).1
        omega
      · intro i hi
        rcases List.mem_append.mp hi with hl | hr
        · have := hidbound i hl
          omega
        · have := IH2 i hr
          omega
      · omega
    | removeSource sid =>
      have hnext : ((remove_by_source st sid).1).next_id = st.next_id :=
        remove_next_id_of_not_reset st sid h1
      simp only [runOps, applyOp, List.nil_append]
      simp only [applyOp] at IH
      rw [hnext] at IH
      exact IH

/-- C9 (amended): vector-ID assignment is append-only and an ID is never handed
out twice as long as no `remove_by_source` call empties the store; the
counterexample's full-reset branch (removal of every vector, which resets
`next_id` to 0) is the only way an ID is ever reused. -/
theorem C9_ids_fresh_in_reset_free_runs (ops : List StoreOp)
    (h : resetFreeRun emptyStore ops = true) :
    ((runOps emptyStore ops).2).Nodup :=
  (runOps_fresh ops emptyStore h).1

/-- C9 witness: a run that adds vectors for two sources, removes one source
(leaving the store non-empty), and adds again; the assigned IDs stay distinct. -/
theorem C9_ids_fresh_in_reset_free_runs_witness :
    ((runOps emptyStore
      [StoreOp.add [⟨"s", "article", 0, "t", "en", none, none, none⟩,
        ⟨"u", "article", 0, "t", "en", none, none, none⟩],
       StoreOp.removeSource "s",
       StoreOp.add [⟨"v", "article", 0, "t", "en", none, none, none⟩]]).2).Nodup :=
  C9_ids_fresh_in_reset_free_runs _ (by decide)

theorem search_videos_by_keywords_error (clientPresent : Bool)
    (vle : Except String (List (String × Option ℚ))) (mdm : ℚ)
    (kw : List String) (mr : Nat) (e : String) :
    search_videos_by_keywords clientPresent (Except.error e) vle mdm kw mr = [] := by
  cases clientPresent <;> simp [search_videos_by_keywords]

theorem search_and_fetch_transcripts_error (api : YtApi) (text : String)
    (mv : Nat) (e : String) (h : api.searchExec = Except.error e) :
    search_and_fetch_transcripts api text mv = [] := by
  simp [search_and_fetch_transcripts, h, search_videos_by_keywords_error]

theorem check_youtube_search_error (api : YtApi) (embed : String → List ℚ)
    (text : String) (chunks : List TextChunk) (embeddings : List (List ℚ))
    (threshold : ℚ) (store : VectorStoreState) (mv : Nat) (e : String)
    (h : api.searchExec = Except.error e) :
    check_youtube api embed text chunks embeddings threshold store mv
      = ([], store) := by
  simp [check_youtube, search_and_fetch_transcripts_error api text mv e h]

/-- C2: when the YouTube source fetcher's external search call raises on every
invocation, the exception is caught inside `search_videos_by_keywords` (both
`except` arms return the empty list), `_check_youtube` degrades to zero matches
without touching the store, and the Check completes: the run is identical — same
completed status, same score, same `sourcesChecked` built from the other sources'
matches only, same persisted report and untouched store — to a run with the
YouTube source disabled.  A fetcher failure never moves the Check to `failed`. -/
theorem C2_youtube_fetcher_failure_contained (s : Settings) (check : CheckRow)
    (article_text : String) (embed : String → List ℚ)
    (local_search : List ℚ → List (VectorMetadata × ℚ)) (store_count : Nat)
    (web_configured : Bool)
    (web_body : Except (List SimilarityMatch) (List SimilarityMatch))
    (api : YtApi) (youtube_store : VectorStoreState) (e : String)
    (h : api.searchExec = Except.error e) :
    (process_check s check article_text embed local_search store_count
      web_configured web_body api youtube_store).1.status = "completed" ∧
    process_check s check article_text embed local_search store_count
      web_configured web_body api youtube_store =
    process_check s ⟨check.sensitivity, check.check_articles, false⟩ article_text
      embed local_search store_count web_configured web_body api youtube_store := by
  constructor
  · simp only [process_check]
  · cases hcy : check.check_youtube with
    | false => simp only [process_check, hcy]
    | true =>
      simp only [process_check, hcy,
        check_youtube_search_error api embed article_text _ _ _ youtube_store
          s.max_youtube_videos e h]
      simp [dedupKeepFirst, dedupKeepFirstGo]

/-- C2 witness: a concrete run whose YouTube search call raises; the Check
completes and equals the youtube-disabled run. -/
theorem C2_youtube_fetcher_failure_contained_witness :
    (process_check defaultSettings ⟨"medium", true, true⟩ "" (fun _ => [1])
      (fun _ => []) 0 true (Except.ok [])
      ⟨true, Except.error "down", Except.error "down",
        fun _ => Except.error "down", fun _ => Except.error "down"⟩
      emptyStore).1.status = "completed" ∧
    process_check defaultSettings ⟨"medium", true, true⟩ "" (fun _ => [1])
      (fun _ => []) 0 true (Except.ok [])
      ⟨true, Except.error "down", Except.error "down",
        fun _ => Except.error "down", fun _ => Except.error "down"⟩
      emptyStore =
    process_check defaultSettings ⟨"medium", true, false⟩ "" (fun _ => [1])
      (fun _ => []) 0 true (Except.ok [])
      ⟨true, Except.error "down", Except.error "down",
        fun _ => Except.error "down", fun _ => Except.error "down"⟩
      emptyStore :=
  C2_youtube_fetcher_failure_contained defaultSettings ⟨"medium", true, true⟩ ""
    (fun _ => [1]) (fun _ => []) 0 true (Except.ok [])
    ⟨true, Except.error "down", Except.error "down",
      fun _ => Except.error "down", fun _ => Except.error "down"⟩
    emptyStore "down" rfl

theorem length_insertDescBy {α : Type} (key : α → ℚ) (x : α) (l : List α) :
    (insertDescBy key x l).length = l.length + 1 := by
  induction l with
  | nil => simp [insertDescBy]
  | cons y ys ih =>
    by_cases h : key y < key x <;> simp [insertDescBy, h, ih]

theorem length_sortDescBy {α : Type} (key : α → ℚ) (l : List α) :
    (sortDescBy key l).length = l.length := by
  suffices hgen : ∀ acc : List α,
      (l.foldl (fun acc x => insertDescBy key x acc) acc).length
        = acc.length + l.length by
    simpa using hgen []
  induction l with
  | nil => intro acc; simp
  | cons y ys ih =>
    intro acc
    simp only [List.foldl_cons]
    rw [ih (insertDescBy key y acc), length_insertDescBy]
    simp only [List.length_cons]
    omega

/-- C8 (amended): the Check's `matchCount` is the length of the full aggregated
match list, while at most the top 20 are persisted; the two agree exactly when at
most 20 sources matched, and in general the persisted count is
`min 20 matchCount`. -/
theorem C8_matchcount_is_total_aggregated (s : Settings) (check : CheckRow)
    (article_text : String) (embed : String → List ℚ)
    (local_search : List ℚ → List (VectorMetadata × ℚ)) (store_count : Nat)
    (web_configured : Bool)
    (web_body : Except (List SimilarityMatch) (List SimilarityMatch))
    (api : YtApi) (youtube_store : VectorStoreState) :
    ((process_check s check article_text embed local_search store_count
        web_configured web_body api youtube_store).1.persisted).length =
      min 20 (process_check s check article_text embed local_search store_count
        web_configured web_body api youtube_store).1.match_count ∧
    ((process_check s check article_text embed local_search store_count
        web_configured web_body api youtube_store).1.match_count ≤ 20 →
      (process_check s check article_text embed local_search store_count
        web_configured web_body api youtube_store).1.match_count =
      ((process_check s check article_text embed local_search store_count
        web_configured web_body api youtube_store).1.persisted).length) := by
  simp only [process_check]
  refine ⟨List.length_take _ _, ?_⟩
  intro h
  rw [List.length_take]
  omega

/-- C8 witness: the amended statement at a concrete empty-result run. -/
theorem C8_matchcount_is_total_aggregated_witness :
    ((process_check defaultSettings ⟨"medium", true, false⟩ "" (fun _ => [1])
        (fun _ => []) 0 false (Except.ok [])
        ⟨false, Except.error "x", Except.error "x",
          fun _ => Except.error "x", fun _ => Except.error "x"⟩
        emptyStore).1.persisted).length =
      min 20 (process_check defaultSettings ⟨"medium", true, false⟩ ""
        (fun _ => [1]) (fun _ => []) 0 false (Except.ok [])
        ⟨false, Except.error "x", Except.error "x",
          fun _ => Except.error "x", fun _ => Except.error "x"⟩
        emptyStore).1.match_count ∧
    ((process_check defaultSettings ⟨"medium", true, false⟩ "" (fun _ => [1])
        (fun _ => []) 0 false (Except.ok [])
        ⟨false, Except.error "x", Except.error "x",
          fun _ => Except.error "x", fun _ => Except.error "x"⟩
        emptyStore).1.match_count ≤ 20 →
      (process_check defaultSettings ⟨"medium", true, false⟩ "" (fun _ => [1])
        (fun _ => []) 0 false (Except.ok [])
        ⟨false, Except.error "x", Except.error "x",
          fun _ => Except.error "x", fun _ => Except.error "x"⟩
        emptyStore).1.match_count =
      ((process_check defaultSettings ⟨"medium", true, false⟩ "" (fun _ => [1])
        (fun _ => []) 0 false (Except.ok [])
        ⟨false, Except.error "x", Except.error "x",
          fun _ => Except.error "x", fun _ => Except.error "x"⟩
        emptyStore).1.persisted).length) :=
  C8_matchcount_is_total_aggregated defaultSettings ⟨"medium", true, false⟩ ""
    (fun _ => [1]) (fun _ => []) 0 false (Except.ok [])
    ⟨false, Except.error "x", Except.error "x",
      fun _ => Except.error "x", fun _ => Except.error "x"⟩
    emptyStore

/-- The source IDs of the C8 counterexample: 21 distinct URLs. -/
def c8source (i : Nat) : String := String.mk (List.replicate i 'a')

/-- The 21 distinct-source web matches of the C8 counterexample, all at
similarity 1. -/
def c8matches : List SimilarityMatch :=
  (List.range 21).map (fun i => ⟨⟨"t", 0, 1, 0, 1⟩, "w", c8source i, "article", 1, none⟩)

/-- A YouTube API stub; the C8 counterexample runs with the YouTube source
disabled, so it is never consulted. -/
def c8api : YtApi :=
  ⟨false, Except.error "x", Except.error "x",
   fun _ => Except.error "x", fun _ => Except.error "x"⟩

theorem c8source_injective : Function.Injective c8source := by
  intro a b hab
  have := congrArg (fun s => s.data.length) hab
  simpa [c8source] using this

theorem dedupKeepFirstGo_eq_self {α : Type} [DecidableEq α] (l : List α) :
    ∀ seen : List α, l.Nodup → (∀ x ∈ l, x ∉ seen) →
      dedupKeepFirstGo seen l = l := by
  induction l with
  | nil => intro seen _ _; rfl
  | cons x xs ih =>
    intro seen hnd hout
    have hx : x ∉ seen := hout x (List.mem_cons_self x xs)
    rw [dedupKeepFirstGo, if_neg hx]
    congr 1
    refine ih (x :: seen) (List.Nodup.of_cons hnd) ?_
    intro y hy
    simp only [List.mem_cons, not_or]
    exact ⟨fun hyx => (List.nodup_cons.mp hnd).1 (hyx ▸ hy),
      fun hys => hout y (List.mem_cons_of_mem x hy) hys⟩

theorem dedupKeepFirst_eq_self {α : Type} [DecidableEq α] (l : List α)
    (h : l.Nodup) : dedupKeepFirst l = l :=
  dedupKeepFirstGo_eq_self l [] h (by simp)

theorem length_aggregate_matches_by_source (s : Settings)
    (ms : List SimilarityMatch) :
    (aggregate_matches_by_source s ms).length =
      (dedupKeepFirst (ms.map (fun m => m.source_id))).length := by
  simp only [aggregate_matches_by_source]
  rw [length_sortDescBy, List.length_map]

/-- C8 counterexample: a completed Check whose filtered matches span 21 distinct
sources stores `matchCount = 21` (the full aggregated count, line 143) while only
the top 20 AggregatedMatches are persisted (line 110) — the stored `matchCount`
differs from the number of persisted records. -/
theorem C8_21_sources_matchcount_mismatch :
    (process_check defaultSettings ⟨"medium", true, false⟩ "" (fun _ => [1])
      (fun _ => []) 0 true (Except.ok c8matches) c8api emptyStore).1.status
      = "completed" ∧
    (process_check defaultSettings ⟨"medium", true, false⟩ "" (fun _ => [1])
      (fun _ => []) 0 true (Except.ok c8matches) c8api emptyStore).1.match_count
      = 21 ∧
    ((process_check defaultSettings ⟨"medium", true, false⟩ "" (fun _ => [1])
      (fun _ => []) 0 true (Except.ok c8matches) c8api emptyStore).1.persisted).length
      = 20 ∧
    (process_check defaultSettings ⟨"medium", true, false⟩ "" (fun _ => [1])
      (fun _ => []) 0 true (Except.ok c8matches) c8api emptyStore).1.match_count
      ≠ ((process_check defaultSettings ⟨"medium", true, false⟩ "" (fun _ => [1])
      (fun _ => []) 0 true (Except.ok c8matches) c8api emptyStore).1.persisted).length
      := by
  have harts : ∀ (ch : List TextChunk) (em : List (List ℚ)) (th : ℚ),
      check_articles (fun _ => []) 0 true (Except.ok c8matches) ch em th
        = c8matches := by
    intro ch em th
    simp [check_articles, check_web_articles]
  have hthr : get_threshold_for_sensitivity defaultSettings "medium" = 3/4 := by
    simp [get_threshold_for_sensitivity, defaultSettings]
  have hfil : filter_matches_by_threshold c8matches (3/4) = c8matches := by
    rw [filter_matches_by_threshold, List.filter_eq_self]
    intro m hm
    simp only [c8matches, List.mem_map] at hm
    obtain ⟨i, _, rfl⟩ := hm
    simp only [decide_eq_true_eq]
    norm_num
  have hdst : (dedupKeepFirst (c8matches.map (fun m => m.source_id))).length
      = 21 := by
    have hmap : c8matches.map (fun m => m.source_id)
        = (List.range 21).map c8source := by
      simp [c8matches, List.map_map]
    rw [hmap,
      dedupKeepFirst_eq_self _ ((List.nodup_range 21).map c8source_injective),
      List.length_map, List.length_range]
  have hm : (process_check defaultSettings ⟨"medium", true, false⟩ ""
      (fun _ => [1]) (fun _ => []) 0 true (Except.ok c8matches) c8api
      emptyStore).1.match_count = 21 := by
    simp only [process_check, harts, hthr, length_aggregate_matches_by_source]
    simp only [Bool.false_eq_true, if_false, if_true, List.append_nil, hfil, hdst]
  have hp : ((process_check defaultSettings ⟨"medium", true, false⟩ ""
      (fun _ => [1]) (fun _ => []) 0 true (Except.ok c8matches) c8api
      emptyStore).1.persisted).length = 20 := by
    simp only [process_check, harts, hthr]
    rw [List.length_take, length_aggregate_matches_by_source]
    simp only [Bool.false_eq_true, if_false, if_true, List.append_nil, hfil, hdst]
    norm_num
  refine ⟨by simp only [process_check], hm, hp, ?_⟩
  rw [hm, hp]
  omega

/-- A concrete 120-word submission (already normalized: single spaces, lowercase,
no punctuation). -/
def c6text : String := "w w w w w w w w w w w w w w w w w w w w w w w w w w w w w w w w w w w w w w w w w w w w w w w w w w w w w w w w w w w w w w w w w w w w w w w w w w w w w w w w w w w w w w w w w w w w w w w w w w w w w w w w w w w w w w w w w w w w w w w w"

set_option maxRecDepth 8192 in
/-- C6 counterexample: the 120-word submission with `minWords=40, maxWords=60,
overlapWords=10` is chunked into THREE chunks, not the claimed two — the window
slides by 50 words, so windows start at words 0, 50 and 100. -/
theorem C6_120_words_give_three_chunks_not_two :
    (chunk_text ⟨40, 60, 10⟩ true c6text).length = 3 ∧
    (chunk_text ⟨40, 60, 10⟩ true c6text).length ≠ 2 := by
  refine ⟨by decide, by decide⟩

/-- C6 (amended): for any submission whose normalized text has exactly 120 words,
`chunk_text` with `minWords=40, maxWords=60, overlapWords=10` returns exactly 3
chunks; the second chunk does start 50 words into the text (its text is the join
of words 50..109), and the third starts 100 words in. -/
theorem C6_120_word_text_chunks_into_three (text : String)
    (h : (pySplit (normalize_text text).data).length = 120) :
    (chunk_text ⟨40, 60, 10⟩ true text).length = 3 ∧
    (chunk_text ⟨40, 60, 10⟩ true text).map (fun c => (c.chunk_index, c.text)) =
      [(0, joinWords ((pySplit (normalize_text text).data).take 60)),
       (1, joinWords (((pySplit (normalize_text text).data).drop 50).take 60)),
       (2, joinWords (((pySplit (normalize_text text).data).drop 100).take 20))] := by
  constructor
  · simp [chunk_text, h, chunkLoop]
  · simp [chunk_text, h, chunkLoop]

set_option maxRecDepth 8192 in
/-- C6 witness: the amended statement at the concrete 120-word submission. -/
theorem C6_120_word_text_chunks_into_three_witness :
    (chunk_text ⟨40, 60, 10⟩ true c6text).length = 3 ∧
    (chunk_text ⟨40, 60, 10⟩ true c6text).map (fun c => (c.chunk_index, c.text)) =
      [(0, joinWords ((pySplit (normalize_text c6text).data).take 60)),
       (1, joinWords (((pySplit (normalize_text c6text).data).drop 50).take 60)),
       (2, joinWords (((pySplit (normalize_text c6text).data).drop 100).take 20))] :=
  C6_120_word_text_chunks_into_three c6text (by decide)

end SimPlat
